import Mathlib

/-!
Verification development for the grader-orchestration worker
(services/grader-orchestration/src).

The Rust sources are shallowly embedded: pure computations become Lean
functions over Nat / Int / Rat / String / List; fallible operations return
Except; the outcomes of external effects (HTTP, filesystem, child
processes, cgroups) are passed in explicitly as environment values, and
the resource actions a function performs are returned as an explicit log.

serde_json::Value is embedded as JsonValue, with numbers modelled over Rat
(serde stores u64 / i64 / f64; every number the embedded code manipulates
is exactly representable). Serializing a value to a JSON string and
parsing it back is the identity on values, so the on-disk cache is
modelled as storing the JSON value itself.
-/

/-- Embedding of serde_json::Value (fixtures.rs, worker.rs, fuzzer.rs).
Objects are association lists in insertion order. -/
inductive JsonValue where
  | null : JsonValue
  | bool (b : Bool) : JsonValue
  | num (q : ℚ) : JsonValue
  | str (s : String) : JsonValue
  | arr (elems : List JsonValue) : JsonValue
  | obj (fields : List (String × JsonValue)) : JsonValue

/-- Value::get(key) on an object; None on every other variant. -/
def jsonGet : JsonValue → String → Option JsonValue
  | .obj fields, key => fields.lookup key
  | _, _ => none

/-- Value::as_str. -/
def jsonAsStr : JsonValue → Option String
  | .str s => some s
  | _ => none

/-- Value::as_bool. -/
def jsonAsBool : JsonValue → Option Bool
  | .bool b => some b
  | _ => none

/-- Value::as_u64: Some exactly for integral values in the u64 range. -/
def jsonAsU64 : JsonValue → Option Nat
  | .num q => if q.den = 1 ∧ 0 ≤ q.num ∧ q.num.toNat < 2 ^ 64 then some q.num.toNat else none
  | _ => none

/-- fixtures.rs: struct TestFixture. u64 fields become Nat; the u64 range
constraints are carried as hypotheses where they matter. -/
structure TestFixture where
  id : String
  name : String
  description : String
  input : JsonValue
  expected_output : JsonValue
  hidden : Bool
  timeout : Nat
  gas_limit : Nat

/-- fixtures.rs, FixtureManager::parse_single_fixture (lines 105-159):
required string field id, every other field defaulted. -/
def parse_single_fixture (data : JsonValue) : Except String TestFixture :=
  match (jsonGet data "id").bind jsonAsStr with
  | none => .error "Fixture missing id"
  | some id =>
    .ok {
      id := id
      name := ((jsonGet data "name").bind jsonAsStr).getD "Unnamed test"
      description := ((jsonGet data "description").bind jsonAsStr).getD ""
      input := (jsonGet data "input").getD .null
      expected_output := (jsonGet data "expected_output").getD .null
      hidden := ((jsonGet data "hidden").bind jsonAsBool).getD false
      timeout := ((jsonGet data "timeout").bind jsonAsU64).getD 30
      gas_limit := ((jsonGet data "gas_limit").bind jsonAsU64).getD 1000000 }

/-- The parsing loop of parse_fixtures: the ? on each element aborts the
whole parse at the first failing element. -/
def parse_fixtures_list : List JsonValue → Except String (List TestFixture)
  | [] => .ok []
  | e :: rest =>
    match parse_single_fixture e with
    | .error msg => .error msg
    | .ok f =>
      match parse_fixtures_list rest with
      | .error msg => .error msg
      | .ok fs => .ok (f :: fs)

/-- fixtures.rs, FixtureManager::parse_fixtures (lines 90-103). -/
def parse_fixtures (data : JsonValue) : Except String (List TestFixture) :=
  match data with
  | .arr elems => parse_fixtures_list elems
  | _ => .error "Fixtures data is not an array"

/-- cache_fixtures (lines 186-198): the JSON object written to the cache
for one fixture. -/
def fixtureToJson (f : TestFixture) : JsonValue :=
  .obj [
    ("id", .str f.id),
    ("name", .str f.name),
    ("description", .str f.description),
    ("input", f.input),
    ("expected_output", f.expected_output),
    ("hidden", .bool f.hidden),
    ("timeout", .num (f.timeout : ℚ)),
    ("gas_limit", .num (f.gas_limit : ℚ))]

/-- The on-disk cache directory: file name (cache key) to parsed JSON
content of the file. -/
abbrev CacheStore := List (String × JsonValue)

/-- fixtures.rs, FixtureManager::cache_fixtures (lines 178-208): writes
the serialized fixture array under the cache key (newest entry wins on
lookup, which models overwriting the file). -/
def cache_fixtures (store : CacheStore) (cache_key : String)
    (fixtures : List TestFixture) : CacheStore :=
  (cache_key, .arr (fixtures.map fixtureToJson)) :: store

/-- fixtures.rs, FixtureManager::get_cached_fixtures (lines 161-176):
miss when the file is absent, otherwise parse the stored array. -/
def get_cached_fixtures (store : CacheStore) (cache_key : String) :
    Except String (List TestFixture) :=
  match store.lookup cache_key with
  | none => .error "Cache miss"
  | some data => parse_fixtures data

/-- Outcome of the HTTP GET in fetch_challenge_fixtures: reqwest status
plus the result of response.json(). -/
structure RemoteResponse where
  statusSuccess : Bool
  statusText : String
  body : Except String JsonValue

/-- External-effect outcomes consumed by one fetch_challenge_fixtures
call: the cache directory content, the transport result of the GET, and
the outcome of the filesystem writes done by cache_fixtures. -/
structure FetchEnv where
  store : CacheStore
  send : Except String RemoteResponse
  cacheWrite : Except String Unit

/-- fixtures.rs, FixtureManager::fetch_challenge_fixtures (lines 35-66):
try the cache, fall back to remote, parse, then write the cache with ?
(so a cache-write failure propagates as the result of the call). -/
def fetch_challenge_fixtures (env : FetchEnv) (challenge_id : String) :
    Except String (List TestFixture) :=
  let cache_key := "fixtures_" ++ challenge_id
  match get_cached_fixtures env.store cache_key with
  | .ok cached => .ok cached
  | .error _ =>
    match env.send with
    | .error e => .error ("Failed to fetch fixtures: " ++ e)
    | .ok resp =>
      if resp.statusSuccess = false then
        .error ("Failed to fetch fixtures: HTTP " ++ resp.statusText)
      else
        match resp.body with
        | .error e => .error ("Failed to parse fixtures JSON: " ++ e)
        | .ok data =>
          match parse_fixtures data with
          | .error e => .error e
          | .ok fixtures =>
            match env.cacheWrite with
            | .error e => .error e
            | .ok _ => .ok fixtures

/-- worker.rs line 84-87: the pipeline continues with an empty fixture
list when the fetch fails (unwrap_or_else with an empty vec). -/
def fixturesOrEmpty (r : Except String (List TestFixture)) : List TestFixture :=
  match r with
  | .ok fs => fs
  | .error _ => []

/-- worker.rs, grade_with_full_pipeline lines 145-151: integer score with
saturating subtraction of the fuzz penalty (Nat subtraction is exactly
usize::saturating_sub). -/
def compute_final_score (passed_tests total_tests crashes_found : Nat) : Nat :=
  let score := if total_tests > 0 then passed_tests * 100 / total_tests else 0
  let fuzz_penalty := crashes_found * 5
  score - fuzz_penalty

/-- worker.rs line 174: the reported success flag. -/
def report_success (final_score : Nat) : Bool := final_score ≥ 70

lemma parse_single_fixture_missing_id (e : JsonValue)
    (h : (jsonGet e "id").bind jsonAsStr = none) :
    parse_single_fixture e = .error "Fixture missing id" := by
  simp [parse_single_fixture, h]

lemma parse_single_fixture_error_msg (e : JsonValue) (m : String)
    (h : parse_single_fixture e = .error m) : m = "Fixture missing id" := by
  unfold parse_single_fixture at h
  cases hid : (jsonGet e "id").bind jsonAsStr <;> simp [hid] at h
  exact h.symm

lemma parse_fixtures_list_bad (elems : List JsonValue)
    (hbad : ∃ e ∈ elems, (jsonGet e "id").bind jsonAsStr = none) :
    parse_fixtures_list elems = .error "Fixture missing id" := by
  induction elems with
  | nil => simp at hbad
  | cons e rest ih =>
    obtain ⟨x, hx, hxid⟩ := hbad
    simp only [List.mem_cons] at hx
    cases hx with
    | inl heq =>
      subst heq
      simp [parse_fixtures_list, parse_single_fixture_missing_id x hxid]
    | inr hmem =>
      cases hpe : parse_single_fixture e with
      | error m =>
        have hm := parse_single_fixture_error_msg e m hpe
        subst hm
        simp [parse_fixtures_list, hpe]
      | ok f =>
        simp [parse_fixtures_list, hpe, ih ⟨x, hmem, hxid⟩]

/-- C1: for a run reaching the aggregate stage with p of t tests passed
and c fuzz crashes, the reported score is max(0, p*100/t - 5c) with
integer division (0 when t = 0), it lies in [0, 100], and the success
flag is true exactly when the score is at least 70. -/
theorem final_score_spec (p t c : Nat) (h : p ≤ t) :
    (compute_final_score p t c : ℤ) =
        max 0 ((if 0 < t then (p : ℤ) * 100 / (t : ℤ) else 0) - 5 * c)
    ∧ compute_final_score p t c ≤ 100
    ∧ (report_success (compute_final_score p t c) = true ↔
        70 ≤ compute_final_score p t c) := by
  have hdiv : p * 100 / t ≤ 100 := Nat.div_le_of_le_mul (by omega)
  refine ⟨?_, ?_, ?_⟩
  · have hcast : ((p * 100 / t : ℕ) : ℤ) = (p : ℤ) * 100 / (t : ℤ) := by
      rw [Int.natCast_div]
      push_cast
      rfl
    simp only [compute_final_score]
    by_cases ht : 0 < t
    · rw [if_pos ht, if_pos ht, ← hcast]
      omega
    · rw [if_neg ht, if_neg ht]
      omega
  · simp only [compute_final_score]
    split <;> omega
  · simp [report_success]

theorem final_score_spec_witness :
    (compute_final_score 8 8 1 : ℤ) =
        max 0 ((if 0 < (8 : ℕ) then ((8 : ℕ) : ℤ) * 100 / ((8 : ℕ) : ℤ) else 0) - 5 * 1)
    ∧ compute_final_score 8 8 1 ≤ 100
    ∧ (report_success (compute_final_score 8 8 1) = true ↔
        70 ≤ compute_final_score 8 8 1) :=
  final_score_spec 8 8 1 (by decide)

/-- C9: fixture parsing is all-or-nothing: one element without a string
id field makes parse_fixtures fail with no fixture returned, and the
pipeline then degrades the whole fetch to an empty fixture list. -/
theorem parse_fixtures_all_or_nothing
    (elems : List JsonValue)
    (hbad : ∃ e ∈ elems, (jsonGet e "id").bind jsonAsStr = none) :
    parse_fixtures (.arr elems) = .error "Fixture missing id"
    ∧ ∀ (env : FetchEnv) (cid msg : String) (resp : RemoteResponse),
        get_cached_fixtures env.store ("fixtures_" ++ cid) = .error msg →
        env.send = .ok resp → resp.statusSuccess = true →
        resp.body = .ok (.arr elems) →
        fixturesOrEmpty (fetch_challenge_fixtures env cid) = [] := by
  have hlist := parse_fixtures_list_bad elems hbad
  refine ⟨by simpa [parse_fixtures] using hlist, ?_⟩
  intro env cid msg resp hmiss hsend hstat hbody
  simp [fetch_challenge_fixtures, hmiss, hsend, hstat, hbody, parse_fixtures,
    hlist, fixturesOrEmpty]

theorem parse_fixtures_all_or_nothing_witness :
    parse_fixtures (.arr [.obj [("name", .str "no id here")]]) =
        .error "Fixture missing id"
    ∧ fixturesOrEmpty
        (fetch_challenge_fixtures
          { store := []
            send := .ok { statusSuccess := true, statusText := "200 OK",
                          body := .ok (.arr [.obj [("name", .str "no id here")]]) }
            cacheWrite := .ok () } "c1") = [] := by
  have h := parse_fixtures_all_or_nothing [.obj [("name", .str "no id here")]]
      ⟨.obj [("name", .str "no id here")], by simp, rfl⟩
  exact ⟨h.1, h.2 _ "c1" "Cache miss" _ rfl rfl rfl rfl⟩

lemma jsonAsU64_natCast (n : Nat) (h : n < 2 ^ 64) :
    jsonAsU64 (.num (n : ℚ)) = some n := by
  have h2 : n < 18446744073709551616 := by omega
  simp [jsonAsU64, Rat.num_natCast, Rat.den_natCast, Int.toNat_natCast, h, h2]

lemma parse_single_fixture_roundtrip (f : TestFixture)
    (ht : f.timeout < 2 ^ 64) (hg : f.gas_limit < 2 ^ 64) :
    parse_single_fixture (fixtureToJson f) = .ok f := by
  have hid : jsonGet (fixtureToJson f) "id" = some (.str f.id) := rfl
  have hname : jsonGet (fixtureToJson f) "name" = some (.str f.name) := rfl
  have hdesc : jsonGet (fixtureToJson f) "description" = some (.str f.description) := rfl
  have hin : jsonGet (fixtureToJson f) "input" = some f.input := rfl
  have hout : jsonGet (fixtureToJson f) "expected_output" = some f.expected_output := rfl
  have hhid : jsonGet (fixtureToJson f) "hidden" = some (.bool f.hidden) := rfl
  have htim : jsonGet (fixtureToJson f) "timeout" = some (.num (f.timeout : ℚ)) := rfl
  have hgas : jsonGet (fixtureToJson f) "gas_limit" = some (.num (f.gas_limit : ℚ)) := rfl
  rw [parse_single_fixture.eq_def, hid, hname, hdesc, hin, hout, hhid, htim, hgas]
  simp only [Option.some_bind, jsonAsStr, jsonAsBool, Option.getD_some,
    jsonAsU64_natCast _ ht, jsonAsU64_natCast _ hg]

lemma parse_fixtures_list_roundtrip (fixtures : List TestFixture)
    (hbound : ∀ f ∈ fixtures, f.timeout < 2 ^ 64 ∧ f.gas_limit < 2 ^ 64) :
    parse_fixtures_list (fixtures.map fixtureToJson) = .ok fixtures := by
  induction fixtures with
  | nil => rfl
  | cons f rest ih =>
    have hf := hbound f (by simp)
    simp [parse_fixtures_list, parse_single_fixture_roundtrip f hf.1 hf.2,
      ih (fun g hg => hbound g (by simp [hg]))]

/-- C7: writing a fixture list with cache_fixtures and reading it back
with get_cached_fixtures returns fixtures equal to the originals in every
field (the u64 range bounds of the Rust field types are hypotheses). -/
theorem cache_roundtrip (store : CacheStore) (key : String)
    (fixtures : List TestFixture)
    (hbound : ∀ f ∈ fixtures, f.timeout < 2 ^ 64 ∧ f.gas_limit < 2 ^ 64) :
    get_cached_fixtures (cache_fixtures store key fixtures) key = .ok fixtures := by
  simp [get_cached_fixtures, cache_fixtures, List.lookup, parse_fixtures,
    parse_fixtures_list_roundtrip fixtures hbound]

theorem cache_roundtrip_witness :
    get_cached_fixtures
      (cache_fixtures [] "fixtures_c1"
        [{ id := "test-1", name := "Simple Test", description := "d",
           input := .obj [("value", .num 42)],
           expected_output := .obj [("result", .num 84)],
           hidden := false, timeout := 30, gas_limit := 1000000 }]) "fixtures_c1"
      = .ok
        [{ id := "test-1", name := "Simple Test", description := "d",
           input := .obj [("value", .num 42)],
           expected_output := .obj [("result", .num 84)],
           hidden := false, timeout := 30, gas_limit := 1000000 }] :=
  cache_roundtrip [] "fixtures_c1" _ (by
    intro f hf
    simp only [List.mem_singleton] at hf
    subst hf
    exact ⟨by norm_num, by norm_num⟩)

/-- C4 (amended): on a cache miss with successful remote fetch and parse,
fetch_challenge_fixtures returns the parsed fixtures exactly when the
cache write also succeeds; a cache-write failure propagates as the error
result of the call (it is fatal, not merely logged). -/
theorem fetch_challenge_fixtures_remote (env : FetchEnv) (cid msg : String)
    (resp : RemoteResponse) (data : JsonValue) (fixtures : List TestFixture)
    (hmiss : get_cached_fixtures env.store ("fixtures_" ++ cid) = .error msg)
    (hsend : env.send = .ok resp) (hstat : resp.statusSuccess = true)
    (hbody : resp.body = .ok data) (hparse : parse_fixtures data = .ok fixtures) :
    fetch_challenge_fixtures env cid =
      match env.cacheWrite with
      | .ok _ => .ok fixtures
      | .error e => .error e := by
  cases hw : env.cacheWrite with
  | ok u => simp [fetch_challenge_fixtures, hmiss, hsend, hstat, hbody, hparse, hw]
  | error e => simp [fetch_challenge_fixtures, hmiss, hsend, hstat, hbody, hparse, hw]

theorem fetch_challenge_fixtures_remote_witness :
    fetch_challenge_fixtures
      { store := []
        send := .ok { statusSuccess := true, statusText := "200 OK",
                      body := .ok (.arr [.obj [("id", .str "t1")]]) }
        cacheWrite := .ok () } "c1"
      = .ok [{ id := "t1", name := "Unnamed test", description := "",
               input := .null, expected_output := .null,
               hidden := false, timeout := 30, gas_limit := 1000000 }] :=
  fetch_challenge_fixtures_remote _ "c1" "Cache miss" _ _ _ rfl rfl rfl rfl rfl

/-- C4 counterexample: cache miss, remote fetch and parse succeed, but the
cache write fails; the call returns the cache-write error instead of the
parsed fixtures, refuting that a cache-write failure is non-fatal. -/
theorem fetch_cache_write_fatal_cex :
    fetch_challenge_fixtures
      { store := []
        send := .ok { statusSuccess := true, statusText := "200 OK",
                      body := .ok (.arr [.obj [("id", .str "t1")]]) }
        cacheWrite := .error "Failed to write cache: disk full" } "c1"
      = .error "Failed to write cache: disk full"
    ∧ parse_fixtures (.arr [.obj [("id", .str "t1")]])
      = .ok [{ id := "t1", name := "Unnamed test", description := "",
               input := .null, expected_output := .null,
               hidden := false, timeout := 30, gas_limit := 1000000 }] :=
  ⟨rfl, rfl⟩

/-- sandbox.rs: struct SandboxConfig (lines 13-21). time_limit is in
seconds, the sizes in bytes, cpu_limit in percent. -/
structure SandboxConfig where
  time_limit : Nat
  memory_limit : Nat
  cpu_limit : Nat
  network_disabled : Bool
  max_file_size : Nat
  max_processes : Nat
  disk_quota : Nat

/-- sandbox.rs: impl Default for SandboxConfig (lines 23-35). -/
def default_sandbox_config : SandboxConfig :=
  { time_limit := 30
    memory_limit := 512 * 1024 * 1024
    cpu_limit := 50
    network_disabled := true
    max_file_size := 10 * 1024 * 1024
    max_processes := 10
    disk_quota := 100 * 1024 * 1024 }

/-- sandbox.rs: struct TraceEvent (lines 48-55); timestamp in ns. -/
structure TraceEvent where
  timestamp : Nat
  event_type : String
  data : JsonValue
  gas_used : Nat
  memory_used : Nat

/-- sandbox.rs: struct ExecutionResult (lines 37-46); execution_time in
ns. -/
structure ExecutionResult where
  success : Bool
  exit_code : Option Int
  stdout : String
  stderr : String
  execution_time : Nat
  memory_used : Nat
  gas_used : Nat
  trace_events : List TraceEvent

/-- The result of the tokio timeout block in execute_in_sandbox (sandbox.rs
lines 92-113), as decided by the external process machinery: the wall
clock expired, or the block finished with a spawn failure, a
cgroup-attach failure, a wait failure, or a completed child. -/
inductive BlockOutcome where
  | timedOut
  | spawnFailed (msg : String)
  | attachFailed (msg : String)
  | waitFailed (msg : String)
  | completed (exitSuccess : Bool) (exit_code : Option Int) (stdout stderr : String)

/-- External-effect outcomes consumed by one execute_in_sandbox call. -/
structure SandboxEnv where
  cgroupCreate : Except String Unit
  volumeSetup : Except String Unit
  rlimitSetup : Except String Unit
  block : BlockOutcome
  startNs : Nat
  endNs : Nat

/-- Resource actions performed by one execute_in_sandbox call: whether
the cgroup was created and deleted, and whether the ephemeral volume was
mounted, unmounted and its mount directory removed. -/
structure ResourceLog where
  cgroupCreated : Bool
  cgroupDeleted : Bool
  volumeMounted : Bool
  volumeUnmounted : Bool
  volumeDirRemoved : Bool

/-- Everything one execute_in_sandbox call produces: the value returned
to the caller, the trace the function accumulated internally (the error
arm of the Rust return type is a bare String and cannot carry it), and
the resource log. -/
structure SandboxOutcome where
  result : Except String ExecutionResult
  internalTrace : List TraceEvent
  resources : ResourceLog

/-- sandbox.rs, execute_in_sandbox (lines 57-176). The three setup calls
use the ? operator, so their failures return before the cleanup section
at lines 162-173; the cleanup section runs for every outcome of the
timed block. The cleanup flags record that the deletion, unmount and
removal were performed (the Rust code only logs their own failures). -/
def execute_in_sandbox (command : String) (args : List String)
    (config : SandboxConfig) (working_dir : String) (env : SandboxEnv) :
    SandboxOutcome :=
  let startEv : TraceEvent :=
    { timestamp := env.startNs, event_type := "execution_start",
      data := .obj [("command", .str command), ("args", .arr (args.map .str)),
                    ("working_dir", .str working_dir)],
      gas_used := 100, memory_used := 0 }
  let trace0 := [startEv]
  let noResources : ResourceLog :=
    { cgroupCreated := false, cgroupDeleted := false, volumeMounted := false,
      volumeUnmounted := false, volumeDirRemoved := false }
  match env.cgroupCreate with
  | .error e =>
    { result := .error e, internalTrace := trace0, resources := noResources }
  | .ok _ =>
    match env.volumeSetup with
    | .error e =>
      { result := .error e, internalTrace := trace0,
        resources := { noResources with cgroupCreated := true } }
    | .ok _ =>
      match env.rlimitSetup with
      | .error e =>
        { result := .error e, internalTrace := trace0,
          resources :=
            { noResources with cgroupCreated := true, volumeMounted := true } }
      | .ok _ =>
        let cleanedUp : ResourceLog :=
          { cgroupCreated := true, cgroupDeleted := true, volumeMounted := true,
            volumeUnmounted := true, volumeDirRemoved := true }
        match env.block with
        | .completed exitSuccess exit_code stdout stderr =>
          let completeEv : TraceEvent :=
            { timestamp := env.endNs, event_type := "execution_complete",
              data := .obj [
                ("exit_code", match exit_code with
                  | some c => .num (c : ℚ)
                  | none => .null),
                ("stdout_length", .num (stdout.length : ℚ)),
                ("stderr_length", .num (stderr.length : ℚ))],
              gas_used := 200, memory_used := config.memory_limit / 2 }
          { result := .ok
              { success := exitSuccess, exit_code := exit_code,
                stdout := stdout, stderr := stderr,
                execution_time := env.endNs,
                memory_used := config.memory_limit / 2,
                gas_used := 300,
                trace_events := trace0 ++ [completeEv] },
            internalTrace := trace0 ++ [completeEv],
            resources := cleanedUp }
        | .spawnFailed m =>
          { result := .error ("Failed to spawn process: " ++ m),
            internalTrace := trace0, resources := cleanedUp }
        | .attachFailed m =>
          { result := .error ("Failed to add process to cgroup: " ++ m),
            internalTrace := trace0, resources := cleanedUp }
        | .waitFailed m =>
          { result := .error ("Failed to wait for process: " ++ m),
            internalTrace := trace0, resources := cleanedUp }
        | .timedOut =>
          let timeoutEv : TraceEvent :=
            { timestamp := env.endNs, event_type := "execution_timeout",
              data := .obj [("reason", .str "time_limit_exceeded")],
              gas_used := 0, memory_used := 0 }
          { result := .error "Execution timed out",
            internalTrace := trace0 ++ [timeoutEv],
            resources := cleanedUp }

/-- The trace the caller can observe from the returned value: the events
inside an ok ExecutionResult; the error arm is a bare string and carries
no events. -/
def callerVisibleTrace (r : Except String ExecutionResult) : List TraceEvent :=
  match r with
  | .ok res => res.trace_events
  | .error _ => []

/-- C2 (amended): once the cgroup, the ephemeral volume and the resource
limits are all set up, every path through the timed block - completion,
spawn failure, cgroup-attach failure, wait failure and timeout - reaches
the cleanup section, which deletes the cgroup and unmounts and removes
the ephemeral volume before the function returns; but an
ephemeral-volume setup failure returns with the created cgroup not
deleted, and a resource-limit setup failure returns with neither the
cgroup deleted nor the volume unmounted. -/
theorem sandbox_cleanup_spec (command : String) (args : List String)
    (config : SandboxConfig) (wd : String) (env : SandboxEnv)
    (hc : env.cgroupCreate = .ok ()) (hv : env.volumeSetup = .ok ())
    (hr : env.rlimitSetup = .ok ()) :
    (execute_in_sandbox command args config wd env).resources.cgroupDeleted = true
    ∧ (execute_in_sandbox command args config wd env).resources.volumeUnmounted = true
    ∧ (execute_in_sandbox command args config wd env).resources.volumeDirRemoved = true := by
  simp only [execute_in_sandbox, hc, hv, hr]
  cases env.block <;> exact ⟨rfl, rfl, rfl⟩

theorem sandbox_cleanup_spec_witness :
    (execute_in_sandbox "echo" ["hi"] default_sandbox_config "/tmp/w"
        { cgroupCreate := .ok (), volumeSetup := .ok (), rlimitSetup := .ok (),
          block := .completed true (some 0) "hi" "", startNs := 0,
          endNs := 1000 }).resources.cgroupDeleted = true
    ∧ (execute_in_sandbox "echo" ["hi"] default_sandbox_config "/tmp/w"
        { cgroupCreate := .ok (), volumeSetup := .ok (), rlimitSetup := .ok (),
          block := .completed true (some 0) "hi" "", startNs := 0,
          endNs := 1000 }).resources.volumeUnmounted = true
    ∧ (execute_in_sandbox "echo" ["hi"] default_sandbox_config "/tmp/w"
        { cgroupCreate := .ok (), volumeSetup := .ok (), rlimitSetup := .ok (),
          block := .completed true (some 0) "hi" "", startNs := 0,
          endNs := 1000 }).resources.volumeDirRemoved = true :=
  sandbox_cleanup_spec "echo" ["hi"] default_sandbox_config "/tmp/w" _ rfl rfl rfl

/-- C2 counterexample: when the ephemeral-volume setup fails, the call
returns with the created cgroup never deleted; when the resource-limit
setup fails, the call returns with the cgroup not deleted and the
mounted volume not unmounted - both contradict the claimed cleanup on
those paths. -/
theorem sandbox_cleanup_cex :
    ((execute_in_sandbox "echo" ["hi"] default_sandbox_config "/tmp/w"
        { cgroupCreate := .ok (), volumeSetup := .error "Mount command failed",
          rlimitSetup := .ok (), block := .completed true (some 0) "" "",
          startNs := 0, endNs := 1000 }).resources.cgroupCreated = true
      ∧ (execute_in_sandbox "echo" ["hi"] default_sandbox_config "/tmp/w"
          { cgroupCreate := .ok (), volumeSetup := .error "Mount command failed",
            rlimitSetup := .ok (), block := .completed true (some 0) "" "",
            startNs := 0, endNs := 1000 }).resources.cgroupDeleted = false)
    ∧ ((execute_in_sandbox "echo" ["hi"] default_sandbox_config "/tmp/w"
          { cgroupCreate := .ok (), volumeSetup := .ok (),
            rlimitSetup := .error "Failed to set CPU limit: EPERM",
            block := .completed true (some 0) "" "",
            startNs := 0, endNs := 1000 }).resources.volumeMounted = true
      ∧ (execute_in_sandbox "echo" ["hi"] default_sandbox_config "/tmp/w"
          { cgroupCreate := .ok (), volumeSetup := .ok (),
            rlimitSetup := .error "Failed to set CPU limit: EPERM",
            block := .completed true (some 0) "" "",
            startNs := 0, endNs := 1000 }).resources.volumeUnmounted = false
      ∧ (execute_in_sandbox "echo" ["hi"] default_sandbox_config "/tmp/w"
          { cgroupCreate := .ok (), volumeSetup := .ok (),
            rlimitSetup := .error "Failed to set CPU limit: EPERM",
            block := .completed true (some 0) "" "",
            startNs := 0, endNs := 1000 }).resources.cgroupDeleted = false) :=
  ⟨⟨rfl, rfl⟩, rfl, rfl, rfl⟩

/-- C3 (amended): when the wall clock expires the call fails with the
bare error string Execution timed out; the function appends an
execution_timeout event to its internal trace, but the value returned to
the caller is only that string, so the caller-observable trace is empty
and contains no execution_timeout event. -/
theorem sandbox_timeout_spec (command : String) (args : List String)
    (config : SandboxConfig) (wd : String) (env : SandboxEnv)
    (hc : env.cgroupCreate = .ok ()) (hv : env.volumeSetup = .ok ())
    (hr : env.rlimitSetup = .ok ()) (hb : env.block = .timedOut) :
    (execute_in_sandbox command args config wd env).result
        = .error "Execution timed out"
    ∧ (∃ ev ∈ (execute_in_sandbox command args config wd env).internalTrace,
        ev.event_type = "execution_timeout")
    ∧ callerVisibleTrace (execute_in_sandbox command args config wd env).result
        = [] := by
  have hres : (execute_in_sandbox command args config wd env).result
      = .error "Execution timed out" := by
    simp [execute_in_sandbox, hc, hv, hr, hb]
  refine ⟨hres, ?_, ?_⟩
  · simp [execute_in_sandbox, hc, hv, hr, hb]
  · rw [hres]
    rfl

theorem sandbox_timeout_spec_witness :
    (execute_in_sandbox "sleep" ["1"] default_sandbox_config "/tmp/w"
        { cgroupCreate := .ok (), volumeSetup := .ok (), rlimitSetup := .ok (),
          block := .timedOut, startNs := 0, endNs := 100000000 }).result
        = .error "Execution timed out"
    ∧ (∃ ev ∈ (execute_in_sandbox "sleep" ["1"] default_sandbox_config "/tmp/w"
        { cgroupCreate := .ok (), volumeSetup := .ok (), rlimitSetup := .ok (),
          block := .timedOut, startNs := 0, endNs := 100000000 }).internalTrace,
        ev.event_type = "execution_timeout")
    ∧ callerVisibleTrace
        (execute_in_sandbox "sleep" ["1"] default_sandbox_config "/tmp/w"
          { cgroupCreate := .ok (), volumeSetup := .ok (), rlimitSetup := .ok (),
            block := .timedOut, startNs := 0, endNs := 100000000 }).result
        = [] :=
  sandbox_timeout_spec "sleep" ["1"] default_sandbox_config "/tmp/w" _
    rfl rfl rfl rfl

/-- C3 counterexample: a timed-out execution fails with the Timeout
error, but the value observable by the caller carries no trace at all,
so no execution_timeout event is observable - refuting that the trace
the function produces for the caller contains that event. -/
theorem sandbox_timeout_trace_cex :
    (execute_in_sandbox "sleep" ["1"] default_sandbox_config "/tmp/w"
        { cgroupCreate := .ok (), volumeSetup := .ok (), rlimitSetup := .ok (),
          block := .timedOut, startNs := 0, endNs := 100000000 }).result
      = .error "Execution timed out"
    ∧ callerVisibleTrace
        (execute_in_sandbox "sleep" ["1"] default_sandbox_config "/tmp/w"
          { cgroupCreate := .ok (), volumeSetup := .ok (), rlimitSetup := .ok (),
            block := .timedOut, startNs := 0, endNs := 100000000 }).result
      = [] :=
  ⟨rfl, rfl⟩

/-- State of the Jaro matching pass: consumed flags for the characters of
the second string, the match and transposition counts, and the index of
the previous match. -/
structure JaroState where
  consumed : List Bool
  matchCount : Nat
  transpositions : Nat
  bMatchIndex : Nat

/-- Inner scan of the Jaro matching pass: the first index j, scanning
upward, with lo ≤ j ≤ hi, character j of b equal to c and not yet
consumed. The fuel argument starts at the length of b. -/
def jaroScan (b : List Char) (consumed : List Bool) (lo hi : Nat) (c : Char) :
    Nat → Nat → Option Nat
  | _, 0 => none
  | j, fuel + 1 =>
    if lo ≤ j ∧ j ≤ hi ∧ b.get? j = some c ∧ consumed.get? j = some false then
      some j
    else
      jaroScan b consumed lo hi c (j + 1) fuel

/-- One step of the Jaro matching pass for character c of the first
string at index i: look within the search window for an unconsumed equal
character of b, and record the match and a transposition when the
matched index precedes the previous one. -/
def jaroStep (b : List Char) (searchRange : Nat) (st : JaroState) (i : Nat)
    (c : Char) : JaroState :=
  let minBound := i - searchRange
  let maxBound := min (b.length - 1) (i + searchRange)
  if maxBound < minBound then st
  else
    match jaroScan b st.consumed minBound maxBound c 0 b.length with
    | none => st
    | some j =>
      { consumed := st.consumed.set j true
        matchCount := st.matchCount + 1
        transpositions :=
          if j < st.bMatchIndex then st.transpositions + 1 else st.transpositions
        bMatchIndex := j }

/-- The matching pass over the first string, threading the index. -/
def jaroLoop (b : List Char) (searchRange : Nat) :
    List Char → Nat → JaroState → JaroState
  | [], _, st => st
  | c :: rest, i, st =>
    jaroLoop b searchRange rest (i + 1) (jaroStep b searchRange st i c)

/-- Match and transposition counts of the Jaro pass between two
character lists. -/
def jaroCounts (a b : List Char) : Nat × Nat :=
  let searchRange := max a.length b.length / 2 - 1
  let st := jaroLoop b searchRange a 0
    { consumed := List.replicate b.length false, matchCount := 0,
      transpositions := 0, bMatchIndex := 0 }
  (st.matchCount, st.transpositions)

/-- Modelled from the spec: calculate_similarity obtains the token
similarity from the external strsim crate, which is not part of this
repository; section 4.4 of the spec names it the Jaro-Winkler similarity
of the joined token strings. This is the Jaro similarity over Rat: 1 for
two empty strings, 0 when exactly one is empty, character equality for
two single-character strings, otherwise the Jaro formula over the greedy
windowed matching pass. -/
def jaroSim (a b : List Char) : ℚ :=
  if a.length = 0 ∧ b.length = 0 then 1
  else if a.length = 0 ∨ b.length = 0 then 0
  else if a.length = 1 ∧ b.length = 1 then (if a = b then 1 else 0)
  else
    let m := (jaroCounts a b).1
    let t := (jaroCounts a b).2
    if m = 0 then 0
    else
      1 / 3 * ((m : ℚ) / a.length + (m : ℚ) / b.length + ((m : ℚ) - t) / m)

/-- Longest common prefix length of two character lists. -/
def commonPrefixLen : List Char → List Char → Nat
  | c :: cs, d :: ds => if c = d then commonPrefixLen cs ds + 1 else 0
  | _, _ => 0

/-- Modelled from the spec: the Jaro-Winkler similarity - Jaro plus the
standard prefix boost with scaling factor 0.1 and the common prefix
capped at four characters, the result capped at 1. -/
def jaro_winkler (s t : String) : ℚ :=
  let jaroDist := jaroSim s.data t.data
  let prefixLen := min (commonPrefixLen s.data t.data) 4
  min (jaroDist + (prefixLen : ℚ) * (1 / 10) * (1 - jaroDist)) 1

/-- anti_cheat.rs: struct CodeFingerprint (lines 34-39); the structural
features HashMap becomes an association list. -/
structure CodeFingerprint where
  ast_hash : String
  token_sequence : List String
  structural_features : List (String × Nat)

/-- anti_cheat.rs: struct MatchedSubmission (lines 19-24). -/
structure MatchedSubmission where
  submission_id : String
  similarity_score : ℚ
  matched_sections : List String

/-- anti_cheat.rs: enum RiskLevel (lines 26-32). -/
inductive RiskLevel where
  | Low
  | Medium
  | High
  | Critical
deriving DecidableEq

/-- anti_cheat.rs: struct PlagiarismResult (lines 11-17). -/
structure PlagiarismResult where
  similarity_score : ℚ
  matched_submissions : List MatchedSubmission
  risk_level : RiskLevel
  analysis_time_ms : Nat

/-- HashMap::get(feature).copied().unwrap_or(0). -/
def featureCount (features : List (String × Nat)) (k : String) : Nat :=
  (features.lookup k).getD 0

/-- The loop condition of calculate_structural_similarity: keys with a
nonzero count on either side contribute. -/
def featureContributes (f1 f2 : List (String × Nat)) (k : String) : Bool :=
  decide (0 < featureCount f1 k ∨ 0 < featureCount f2 k)

/-- The per-key term of calculate_structural_similarity. -/
def featureTerm (f1 f2 : List (String × Nat)) (k : String) : ℚ :=
  let count1 : ℚ := featureCount f1 k
  let count2 : ℚ := featureCount f2 k
  1 - |count1 - count2| / max (count1 + count2) 1

/-- anti_cheat.rs, calculate_structural_similarity (lines 362-387): over
the union of the key sets, every key with a nonzero count on either side
contributes 1 - |c1 - c2| / max(c1 + c2, 1); the result is the mean over
the contributing keys, 0 when none contribute. The HashSet union is
embedded as the deduplicated concatenation of the key lists. -/
def calculate_structural_similarity (f1 f2 : List (String × Nat)) : ℚ :=
  let total_features := (f1.map Prod.fst ++ f2.map Prod.fst).dedup
  let contributing := total_features.filter (featureContributes f1 f2)
  let similarity_sum := (contributing.map (featureTerm f1 f2)).sum
  if contributing.length = 0 then 0
  else similarity_sum / contributing.length

/-- Vec::join with a single separator between consecutive tokens. -/
def joinTokens : List String → String
  | [] => ""
  | [t] => t
  | t :: rest => t ++ " " ++ joinTokens rest

/-- anti_cheat.rs, calculate_similarity (lines 346-360): 0.4 times the
content-hash equality, 0.4 times the Jaro-Winkler similarity of the
space-joined token sequences, 0.2 times the structural similarity. The
Rust evaluates this expression in f64; this embedding is exact over Rat,
so a computed value within a rounding error of a threshold constant can
fall on the other side of that threshold in the program (for example the
f64 product 0.4 * 0.75 rounds up and exceeds the f64 literal 0.3). The
facts proved below use this definition only at values - 0, 0.8, 1 and
strict inequalities away from the thresholds - on which the exact and
the f64 evaluation agree. -/
def calculate_similarity (fp1 fp2 : CodeFingerprint) : ℚ :=
  let hash_similarity : ℚ := if fp1.ast_hash = fp2.ast_hash then 1 else 0
  let token_similarity :=
    jaro_winkler (joinTokens fp1.token_sequence) (joinTokens fp2.token_sequence)
  let structural_similarity :=
    calculate_structural_similarity fp1.structural_features fp2.structural_features
  4 / 10 * hash_similarity + 4 / 10 * token_similarity
    + 2 / 10 * structural_similarity

/-- anti_cheat.rs, assess_risk_level (lines 389-396). -/
def assess_risk_level (max_similarity : ℚ) : RiskLevel :=
  if max_similarity ≥ 9 / 10 then .Critical
  else if max_similarity ≥ 7 / 10 then .High
  else if max_similarity ≥ 5 / 10 then .Medium
  else .Low

/-- str::contains as a character-level scan (valid UTF-8 is
self-synchronizing, so byte-level and character-level containment
agree). -/
def charsContain (needle : List Char) : List Char → Bool
  | [] => needle.isEmpty
  | c :: rest => needle.isPrefixOf (c :: rest) || charsContain needle rest

/-- submission_key.contains(user_id). -/
def strContains (hay needle : String) : Bool := charsContain needle.data hay.data

/-- submission_key.starts_with(challenge_key). -/
def strStartsWith (s p : String) : Bool := p.data.isPrefixOf s.data

/-- str::to_lowercase, character by character. -/
def strToLower (s : String) : String := ⟨s.data.map Char.toLower⟩

/-- The loop body of check_plagiarism (anti_cheat.rs lines 70-81): a
stored entry is reported when its key starts with the challenge key, its
key does not contain the user id, and the similarity is strictly above
the 0.3 reporting threshold. -/
def submission_match (fingerprint : CodeFingerprint)
    (challenge_key user_id : String) (p : String × CodeFingerprint) :
    Option MatchedSubmission :=
  if strStartsWith p.1 challenge_key && !strContains p.1 user_id then
    let similarity := calculate_similarity fingerprint p.2
    if similarity > 3 / 10 then
      some { submission_id := p.1, similarity_score := similarity,
             matched_sections := ["full_code"] }
    else none
  else none

/-- anti_cheat.rs, check_plagiarism (lines 52-94), over the in-memory
submission database as an association list and over the already-computed
fingerprint of the submitted code (generate_fingerprint parses with
external parser crates, so the fingerprint is a parameter here). The
analysis time is an external clock value. HashMap iteration order is
embedded as list order; the reported facts do not depend on it. -/
def check_plagiarism (db : List (String × CodeFingerprint))
    (fingerprint : CodeFingerprint) (user_id challenge_id language : String)
    (analysis_time_ms : Nat) : PlagiarismResult :=
  let challenge_key := challenge_id ++ ":" ++ strToLower language
  let found := db.filterMap (submission_match fingerprint challenge_key user_id)
  let max_similarity := (found.map (fun m => m.similarity_score)).foldl max 0
  { similarity_score := max_similarity
    matched_submissions := found
    risk_level := assess_risk_level max_similarity
    analysis_time_ms := analysis_time_ms }

lemma get?_replicate_lt {α : Type} (a : α) (n j : Nat) (h : j < n) :
    (List.replicate n a).get? j = some a := by
  induction n generalizing j with
  | zero => omega
  | succ m ih =>
    cases j with
    | zero => simp [List.replicate_succ]
    | succ i => simpa [List.replicate_succ] using ih i (by omega)

lemma set_append_replicate_head {α : Type} (a y x : α) (k : Nat) (xs : List α) :
    (List.replicate k a ++ x :: xs).set k y = List.replicate k a ++ y :: xs := by
  induction k with
  | zero => simp
  | succ n ih => simp [List.replicate_succ, List.set, ih]

lemma jaroScan_finds (b : List Char) (consumed : List Bool) (lo hi : Nat)
    (c : Char) (k : Nat) :
    ∀ (fuel start : Nat), start ≤ k → k < start + fuel →
    (∀ j, start ≤ j → j < k →
      ¬(lo ≤ j ∧ j ≤ hi ∧ b.get? j = some c ∧ consumed.get? j = some false)) →
    (lo ≤ k ∧ k ≤ hi ∧ b.get? k = some c ∧ consumed.get? k = some false) →
    jaroScan b consumed lo hi c start fuel = some k := by
  intro fuel
  induction fuel with
  | zero => intro start h1 h2 _ _; omega
  | succ n ih =>
    intro start hsk hlt hbef hk
    rw [jaroScan]
    by_cases he : start = k
    · subst he
      rw [if_pos hk]
    · have hslt : start < k := lt_of_le_of_ne hsk he
      rw [if_neg (hbef start le_rfl hslt)]
      exact ih (start + 1) hslt (by omega) (fun j hj1 hj2 => hbef j (by omega) hj2) hk

lemma consumedSelf_get_lt (k n j : Nat) (hj : j < k) :
    (List.replicate k true ++ List.replicate (n - k) false).get? j = some true := by
  rw [List.get?_append (by simpa using hj)]
  exact get?_replicate_lt true k j hj

lemma consumedSelf_get_self (k n : Nat) (h : k < n) :
    (List.replicate k true ++ List.replicate (n - k) false).get? k = some false := by
  rw [List.get?_append_right (by simp)]
  simp only [List.length_replicate, Nat.sub_self]
  exact get?_replicate_lt false (n - k) 0 (by omega)

lemma jaroStep_self (l : List Char) (r k : Nat) (hk : k < l.length) (c : Char)
    (hc : l.get? k = some c) :
    jaroStep l r
      { consumed := List.replicate k true ++ List.replicate (l.length - k) false,
        matchCount := k, transpositions := 0, bMatchIndex := k - 1 } k c
    = { consumed :=
          List.replicate (k+1) true ++ List.replicate (l.length - (k+1)) false,
        matchCount := k + 1, transpositions := 0, bMatchIndex := k } := by
  unfold jaroStep
  have hminmax : ¬ (min (l.length - 1) (k + r) < k - r) := by
    have h1 : k ≤ l.length - 1 := by omega
    have h2 : k - r ≤ k := Nat.sub_le k r
    have h3 : k ≤ k + r := Nat.le_add_right k r
    omega
  rw [if_neg hminmax]
  rw [jaroScan_finds l _ (k - r) (min (l.length - 1) (k + r)) c k l.length 0
    (Nat.zero_le k) (by omega)
    (fun j hj1 hj2 h => by
      have := consumedSelf_get_lt k l.length j hj2
      rw [this] at h
      simp at h)
    ⟨Nat.sub_le k r, by omega, hc, consumedSelf_get_self k l.length hk⟩]
  have hset : (List.replicate k true ++ List.replicate (l.length - k) false).set k true
      = List.replicate (k+1) true ++ List.replicate (l.length - (k+1)) false := by
    have h1 : l.length - k = (l.length - (k+1)) + 1 := by omega
    rw [h1, List.replicate_succ, set_append_replicate_head,
      List.replicate_succ' k true, List.append_assoc, List.singleton_append]
  have htr : ¬ (k < k - 1) := by omega
  dsimp only
  rw [hset, if_neg htr]

lemma jaroLoop_self (l : List Char) (r : Nat) :
    ∀ (suffix : List Char) (k : Nat), suffix = l.drop k → k ≤ l.length →
    jaroLoop l r suffix k
      { consumed := List.replicate k true ++ List.replicate (l.length - k) false,
        matchCount := k, transpositions := 0, bMatchIndex := k - 1 }
    = { consumed :=
          List.replicate l.length true ++ List.replicate (l.length - l.length) false,
        matchCount := l.length, transpositions := 0,
        bMatchIndex := l.length - 1 } := by
  intro suffix
  induction suffix with
  | nil =>
    intro k hdrop hk
    have hlen : l.length ≤ k := by
      have := congrArg List.length hdrop
      simp [List.length_drop] at this
      omega
    have : k = l.length := le_antisymm hk hlen
    subst this
    rfl
  | cons c rest ih =>
    intro k hdrop hk
    have hget : l.get? k = some c := by
      have h1 : (l.drop k).get? 0 = l.get? (k + 0) := List.get?_drop l k 0
      rw [← hdrop] at h1
      simpa using h1.symm
    have hklt : k < l.length := by
      by_contra hge
      have : l.drop k = [] := List.drop_eq_nil_of_le (by omega)
      rw [this] at hdrop
      exact List.noConfusion hdrop.symm
    have hrest : rest = l.drop (k + 1) := by
      have h1 : (l.drop k).tail = l.drop (k + 1) := List.tail_drop l k
      rw [← hdrop] at h1
      simpa using h1
    rw [jaroLoop, jaroStep_self l r k hklt c hget]
    exact ih (k + 1) hrest (by omega)

lemma jaroCounts_self (l : List Char) : jaroCounts l l = (l.length, 0) := by
  unfold jaroCounts
  have hinit :
      ({ consumed := List.replicate l.length false, matchCount := 0,
         transpositions := 0, bMatchIndex := 0 } : JaroState)
      = { consumed :=
            List.replicate 0 true ++ List.replicate (l.length - 0) false,
          matchCount := 0, transpositions := 0, bMatchIndex := 0 - 1 } := by
    simp
  dsimp only
  rw [hinit, jaroLoop_self l (max l.length l.length / 2 - 1) l 0 rfl (Nat.zero_le _)]

lemma jaroSim_self (l : List Char) : jaroSim l l = 1 := by
  unfold jaroSim
  by_cases h0 : l.length = 0
  · rw [if_pos ⟨h0, h0⟩]
  · by_cases h1 : l.length = 1
    · rw [if_neg (fun h => h0 h.1), if_neg (fun h => h.elim h0 h0),
        if_pos ⟨h1, h1⟩, if_pos rfl]
    · rw [if_neg (fun h => h0 h.1), if_neg (fun h => h.elim h0 h0),
        if_neg (fun h => h1 h.1)]
      simp only [jaroCounts_self]
      rw [if_neg h0]
      have hq : (l.length : ℚ) ≠ 0 := by exact_mod_cast h0
      field_simp
      ring

lemma jaro_winkler_self (s : String) : jaro_winkler s s = 1 := by
  unfold jaro_winkler
  rw [jaroSim_self]
  simp

lemma lookup_mem_keys {f : List (String × Nat)} {k : String} {c : Nat}
    (h : f.lookup k = some c) : k ∈ f.map Prod.fst := by
  induction f with
  | nil => simp [List.lookup] at h
  | cons p rest ih =>
    rw [List.lookup] at h
    cases he : (k == p.1) with
    | true =>
      have hk : k = p.1 := by simpa using he
      simp [hk]
    | false =>
      rw [he] at h
      simp only [List.map_cons, List.mem_cons]
      exact Or.inr (ih h)

lemma featureTerm_self (f : List (String × Nat)) (k : String) :
    featureTerm f f k = 1 := by
  simp [featureTerm]

lemma structural_similarity_self (f : List (String × Nat))
    (hf : ∃ k, 0 < featureCount f k) :
    calculate_structural_similarity f f = 1 := by
  unfold calculate_structural_similarity
  dsimp only
  obtain ⟨k, hk⟩ := hf
  have hkmem : k ∈ ((f.map Prod.fst ++ f.map Prod.fst).dedup.filter
      (featureContributes f f)) := by
    rw [List.mem_filter]
    constructor
    · rw [List.mem_dedup, List.mem_append]
      have hsome : f.lookup k = some (featureCount f k) := by
        unfold featureCount at hk ⊢
        cases hl : f.lookup k with
        | none => rw [hl] at hk; simp at hk
        | some c => simp [hl]
      exact Or.inl (lookup_mem_keys hsome)
    · simp [featureContributes]
      exact hk
  have hne : ((f.map Prod.fst ++ f.map Prod.fst).dedup.filter
      (featureContributes f f)).length ≠ 0 := by
    intro hzero
    rw [List.length_eq_zero] at hzero
    rw [hzero] at hkmem
    simp at hkmem
  rw [if_neg hne]
  have hmap : ((f.map Prod.fst ++ f.map Prod.fst).dedup.filter
        (featureContributes f f)).map (featureTerm f f)
      = List.replicate ((f.map Prod.fst ++ f.map Prod.fst).dedup.filter
        (featureContributes f f)).length 1 := by
    rw [List.eq_replicate_iff]  
    refine ⟨by simp, ?_⟩
    intro x hx
    rw [List.mem_map] at hx
    obtain ⟨y, _, hy⟩ := hx
    rw [← hy, featureTerm_self]
  rw [hmap, List.sum_replicate, nsmul_eq_mul, mul_one]
  have hq : (((f.map Prod.fst ++ f.map Prod.fst).dedup.filter
      (featureContributes f f)).length : ℚ) ≠ 0 := by exact_mod_cast hne
  field_simp

lemma calculate_similarity_self (fp : CodeFingerprint)
    (hf : ∃ k, 0 < featureCount fp.structural_features k) :
    calculate_similarity fp fp = 1 := by
  unfold calculate_similarity
  dsimp only
  rw [if_pos rfl, jaro_winkler_self, structural_similarity_self _ hf]
  norm_num

lemma structural_similarity_symm (f1 f2 : List (String × Nat)) :
    calculate_structural_similarity f1 f2 = calculate_structural_similarity f2 f1 := by
  unfold calculate_structural_similarity
  dsimp only
  have h1 : featureContributes f1 f2 = featureContributes f2 f1 := by
    funext k
    simp [featureContributes, or_comm]
  have h2 : featureTerm f1 f2 = featureTerm f2 f1 := by
    funext k
    simp only [featureTerm]
    rw [abs_sub_comm, add_comm ((featureCount f1 k : ℚ))]
  rw [h1, h2]
  have hperm : ((f1.map Prod.fst ++ f2.map Prod.fst).dedup).Perm
      ((f2.map Prod.fst ++ f1.map Prod.fst).dedup) :=
    (List.perm_append_comm).dedup
  have hpf := hperm.filter (featureContributes f2 f1)
  rw [(hpf.map (featureTerm f2 f1)).sum_eq, hpf.length_eq]

lemma calculate_similarity_symm (fp1 fp2 : CodeFingerprint)
    (hjw : jaro_winkler (joinTokens fp1.token_sequence) (joinTokens fp2.token_sequence)
      = jaro_winkler (joinTokens fp2.token_sequence) (joinTokens fp1.token_sequence)) :
    calculate_similarity fp1 fp2 = calculate_similarity fp2 fp1 := by
  unfold calculate_similarity
  dsimp only
  rw [hjw, structural_similarity_symm]
  by_cases h : fp1.ast_hash = fp2.ast_hash
  · rw [if_pos h, if_pos h.symm]
  · rw [if_neg h, if_neg (fun hx => h hx.symm)]

/-- C5 (amended): calculate_similarity of a fingerprint with itself is
1.0 whenever the fingerprint has at least one structural feature of
positive count (for a fingerprint with no structural features - as
produced from an empty but parseable source - the self-similarity is 0.8
instead); and calculate_similarity is symmetric whenever the underlying
Jaro-Winkler token similarity is symmetric on the two joined token
strings, which is a property of the external strsim crate. -/
theorem calc_sim_refl_and_symm :
    (∀ fp : CodeFingerprint,
      (∃ k, 0 < featureCount fp.structural_features k) →
      calculate_similarity fp fp = 1)
    ∧ (∀ fp1 fp2 : CodeFingerprint,
        jaro_winkler (joinTokens fp1.token_sequence) (joinTokens fp2.token_sequence)
          = jaro_winkler (joinTokens fp2.token_sequence) (joinTokens fp1.token_sequence) →
        calculate_similarity fp1 fp2 = calculate_similarity fp2 fp1) :=
  ⟨calculate_similarity_self, calculate_similarity_symm⟩

/-- Witness for C5: a concrete fingerprint with a structural feature has
self-similarity 1, and a concrete pair of fingerprints compares
symmetrically. -/
theorem calc_sim_refl_witness :
    calculate_similarity
      { ast_hash := "h1", token_sequence := ["fn"],
        structural_features := [("fn", 1)] }
      { ast_hash := "h1", token_sequence := ["fn"],
        structural_features := [("fn", 1)] } = 1
    ∧ calculate_similarity
        { ast_hash := "h1", token_sequence := ["fn"], structural_features := [] }
        { ast_hash := "h2", token_sequence := ["zz"], structural_features := [] }
      = calculate_similarity
        { ast_hash := "h2", token_sequence := ["zz"], structural_features := [] }
        { ast_hash := "h1", token_sequence := ["fn"], structural_features := [] } := by
  constructor
  · exact calc_sim_refl_and_symm.1 _ ⟨"fn", by decide⟩
  · refine calc_sim_refl_and_symm.2 _ _ ?_
    have h1 : jaro_winkler "fn" "zz" = 0 := by
      unfold jaro_winkler jaroSim
      dsimp only
      rw [if_neg (by decide), if_neg (by decide), if_neg (by decide),
        if_pos (by decide),
        show min (commonPrefixLen "fn".data "zz".data) 4 = 0 from rfl]
      norm_num
    have h2 : jaro_winkler "zz" "fn" = 0 := by
      unfold jaro_winkler jaroSim
      dsimp only
      rw [if_neg (by decide), if_neg (by decide), if_neg (by decide),
        if_pos (by decide),
        show min (commonPrefixLen "zz".data "fn".data) 4 = 0 from rfl]
      norm_num
    rw [show joinTokens ["fn"] = "fn" from rfl, show joinTokens ["zz"] = "zz" from rfl,
      h1, h2]

/-- C5 counterexample: the fingerprint of the empty source (a parseable
source: its content hash is the md5 of the empty string, its token
sequence and feature histogram are empty) has self-similarity 4/5, not
1.0, because the structural term contributes 0 when no key contributes. -/
theorem calc_sim_empty_cex :
    calculate_similarity
      { ast_hash := "d41d8cd98f00b204e9800998ecf8427e", token_sequence := [],
        structural_features := [] }
      { ast_hash := "d41d8cd98f00b204e9800998ecf8427e", token_sequence := [],
        structural_features := [] } = 4 / 5
    ∧ calculate_similarity
      { ast_hash := "d41d8cd98f00b204e9800998ecf8427e", token_sequence := [],
        structural_features := [] }
      { ast_hash := "d41d8cd98f00b204e9800998ecf8427e", token_sequence := [],
        structural_features := [] } ≠ 1 := by
  have h : calculate_similarity
      { ast_hash := "d41d8cd98f00b204e9800998ecf8427e", token_sequence := [],
        structural_features := [] }
      { ast_hash := "d41d8cd98f00b204e9800998ecf8427e", token_sequence := [],
        structural_features := [] } = 4 / 5 := by
    unfold calculate_similarity
    dsimp only
    rw [if_pos rfl, show joinTokens ([] : List String) = "" from rfl,
      jaro_winkler_self "",
      show calculate_structural_similarity [] [] = 0 from rfl]
    norm_num
  exact ⟨h, by rw [h]; norm_num⟩

lemma submission_match_eq_some (fp : CodeFingerprint) (ck uid : String)
    (p : String × CodeFingerprint) (m : MatchedSubmission) :
    submission_match fp ck uid p = some m ↔
      strStartsWith p.1 ck = true ∧ strContains p.1 uid = false
      ∧ 3 / 10 < calculate_similarity fp p.2
      ∧ m = { submission_id := p.1,
              similarity_score := calculate_similarity fp p.2,
              matched_sections := ["full_code"] } := by
  unfold submission_match
  dsimp only
  by_cases h1 : (strStartsWith p.1 ck && !strContains p.1 uid) = true
  · rw [if_pos h1]
    rw [Bool.and_eq_true, Bool.not_eq_true'] at h1
    by_cases h2 : calculate_similarity fp p.2 > 3 / 10
    · rw [if_pos h2]
      simp only [Option.some.injEq]
      constructor
      · intro h
        exact ⟨h1.1, h1.2, h2, h.symm⟩
      · intro h
        exact h.2.2.2.symm
    · rw [if_neg h2]
      constructor
      · intro h
        simp at h
      · intro h
        exact absurd h.2.2.1 h2
  · rw [if_neg h1]
    constructor
    · intro h
      simp at h
    · intro h
      rw [Bool.and_eq_true, Bool.not_eq_true'] at h1
      exact absurd ⟨h.1, h.2.1⟩ h1

/-- C6 (amended): a stored entry is reported exactly when its key starts
with the challenge key, its key does not contain the querying user id as
a substring, and its similarity passes the strict reporting test of the
code, similarity greater than 0.3 (rendered here over exact rationals;
the Rust comparison is on the computed f64, which decides which side of
the threshold a borderline value falls on); the risk level is computed
by assess_risk_level on the maximum match similarity (0 when there is no
match), with the bands Critical at 0.9 and above, High at 0.7 and above,
Medium at 0.5 and above, and Low below 0.5. -/
theorem check_plagiarism_spec (db : List (String × CodeFingerprint))
    (fp : CodeFingerprint) (user_id challenge_id language : String) (t : Nat) :
    (∀ m : MatchedSubmission,
      m ∈ (check_plagiarism db fp user_id challenge_id language t).matched_submissions ↔
      ∃ p ∈ db,
        strStartsWith p.1 (challenge_id ++ ":" ++ strToLower language) = true
        ∧ strContains p.1 user_id = false
        ∧ 3 / 10 < calculate_similarity fp p.2
        ∧ m = { submission_id := p.1,
                similarity_score := calculate_similarity fp p.2,
                matched_sections := ["full_code"] })
    ∧ (check_plagiarism db fp user_id challenge_id language t).risk_level
        = assess_risk_level
          (((check_plagiarism db fp user_id challenge_id language t).matched_submissions.map
            (fun m => m.similarity_score)).foldl max 0)
    ∧ (∀ s : ℚ,
        (9 / 10 ≤ s → assess_risk_level s = .Critical)
        ∧ (s < 9 / 10 → 7 / 10 ≤ s → assess_risk_level s = .High)
        ∧ (s < 7 / 10 → 5 / 10 ≤ s → assess_risk_level s = .Medium)
        ∧ (s < 5 / 10 → assess_risk_level s = .Low)) := by
  refine ⟨?_, rfl, ?_⟩
  · intro m
    unfold check_plagiarism
    dsimp only
    rw [List.mem_filterMap]
    simp only [submission_match_eq_some]
  · intro s
    unfold assess_risk_level
    refine ⟨?_, ?_, ?_, ?_⟩
    · intro h
      rw [if_pos (show s ≥ 9 / 10 from h)]
    · intro h9 h7
      rw [if_neg (show ¬ s ≥ 9 / 10 by exact not_le.mpr h9),
        if_pos (show s ≥ 7 / 10 from h7)]
    · intro h7 h5
      rw [if_neg (show ¬ s ≥ 9 / 10 by exact not_le.mpr (by linarith)),
        if_neg (show ¬ s ≥ 7 / 10 by exact not_le.mpr h7),
        if_pos (show s ≥ 5 / 10 from h5)]
    · intro h5
      rw [if_neg (show ¬ s ≥ 9 / 10 by exact not_le.mpr (by linarith)),
        if_neg (show ¬ s ≥ 7 / 10 by exact not_le.mpr (by linarith)),
        if_neg (show ¬ s ≥ 5 / 10 by exact not_le.mpr h5)]

/-- A small fingerprint used as a concrete instance: one fn token with
one structural feature. -/
def fpFn : CodeFingerprint :=
  { ast_hash := "h1", token_sequence := ["fn"], structural_features := [("fn", 1)] }

/-- C6 counterexample: the identical source resubmitted under the key of
a different user, alice2, whose key happens to contain the querying user
id alice. The fingerprint is one the Rust tokenizer produces (fn item
with one local statement: tokens fn, other_stmt), the content hashes
coincide because the source is identical, and the self-similarity is
exactly 1 - a value on which exact rational and f64 evaluation agree, far
above every reporting threshold. The claim says this same-challenge
submission of another user appears in matched_submissions; the code
drops it, because its exclusion test is substring containment of the
user id in the whole key, not an owner comparison. -/
theorem plagiarism_dropped_match_cex :
    calculate_similarity
      { ast_hash := "0123456789abcdef0123456789abcdef",
        token_sequence := ["fn", "other_stmt"],
        structural_features := [("fn", 1), ("other_stmt", 1)] }
      { ast_hash := "0123456789abcdef0123456789abcdef",
        token_sequence := ["fn", "other_stmt"],
        structural_features := [("fn", 1), ("other_stmt", 1)] } = 1
    ∧ strStartsWith "challenge-1:rust:alice2"
        ("challenge-1" ++ ":" ++ strToLower "rust") = true
    ∧ ("alice2" : String) ≠ "alice"
    ∧ strContains "challenge-1:rust:alice2" "alice" = true
    ∧ (check_plagiarism
        [("challenge-1:rust:alice2",
          { ast_hash := "0123456789abcdef0123456789abcdef",
            token_sequence := ["fn", "other_stmt"],
            structural_features := [("fn", 1), ("other_stmt", 1)] })]
        { ast_hash := "0123456789abcdef0123456789abcdef",
          token_sequence := ["fn", "other_stmt"],
          structural_features := [("fn", 1), ("other_stmt", 1)] }
        "alice" "challenge-1" "rust" 5).matched_submissions = [] := by
  refine ⟨calculate_similarity_self _ ⟨"fn", by decide⟩, by decide, by decide,
    by decide, ?_⟩
  have hnone : submission_match
      { ast_hash := "0123456789abcdef0123456789abcdef",
        token_sequence := ["fn", "other_stmt"],
        structural_features := [("fn", 1), ("other_stmt", 1)] }
      ("challenge-1" ++ ":" ++ strToLower "rust") "alice"
      ("challenge-1:rust:alice2",
        { ast_hash := "0123456789abcdef0123456789abcdef",
          token_sequence := ["fn", "other_stmt"],
          structural_features := [("fn", 1), ("other_stmt", 1)] }) = none := by
    unfold submission_match
    dsimp only
    rw [if_neg (by decide)]
  unfold check_plagiarism
  dsimp only
  rw [List.filterMap_cons, hnone]
  rfl

/-- Witness for C6: a self-match with similarity 1 is reported for a
stored same-challenge submission of another user, and each risk band is
realized at a concrete similarity. -/
theorem check_plagiarism_spec_witness :
    ({ submission_id := "chal:rust:bob",
       similarity_score := calculate_similarity fpFn fpFn,
       matched_sections := ["full_code"] } : MatchedSubmission)
      ∈ (check_plagiarism [("chal:rust:bob", fpFn)] fpFn
          "alice" "chal" "rust" 5).matched_submissions
    ∧ assess_risk_level (19 / 20) = .Critical
    ∧ assess_risk_level (3 / 4) = .High
    ∧ assess_risk_level (3 / 5) = .Medium
    ∧ assess_risk_level (1 / 4) = .Low := by
  have hbands := (check_plagiarism_spec [] fpFn "a" "c" "l" 0).2.2
  refine ⟨?_, (hbands (19 / 20)).1 (by norm_num),
    (hbands (3 / 4)).2.1 (by norm_num) (by norm_num),
    (hbands (3 / 5)).2.2.1 (by norm_num) (by norm_num),
    (hbands (1 / 4)).2.2.2 (by norm_num)⟩
  refine ((check_plagiarism_spec [("chal:rust:bob", fpFn)] fpFn
      "alice" "chal" "rust" 5).1 _).mpr ?_
  refine ⟨("chal:rust:bob", fpFn), by simp, by decide, by decide, ?_, rfl⟩
  rw [calculate_similarity_self fpFn ⟨"fn", by decide⟩]
  norm_num

/-- C10: every reported match has a submission key that does not contain
the querying user id as a substring - check_plagiarism skips every
stored entry whose key contains the user id anywhere, a superset of the
same-user exclusion. -/
theorem check_plagiarism_excludes_substring_keys
    (db : List (String × CodeFingerprint)) (fp : CodeFingerprint)
    (user_id challenge_id language : String) (t : Nat) (m : MatchedSubmission)
    (hm : m ∈ (check_plagiarism db fp user_id challenge_id language t).matched_submissions) :
    strContains m.submission_id user_id = false := by
  unfold check_plagiarism at hm
  dsimp only at hm
  rw [List.mem_filterMap] at hm
  obtain ⟨p, hp, hpm⟩ := hm
  rw [submission_match_eq_some] at hpm
  rw [hpm.2.2.2]
  exact hpm.2.1

/-- Witness for C10: concrete instance with one reported match. -/
theorem check_plagiarism_excludes_substring_keys_witness :
    strContains "chal:rust:bob" "alice" = false :=
  check_plagiarism_excludes_substring_keys
    [("chal:rust:bob", fpFn)] fpFn "alice" "chal" "rust" 5
    { submission_id := "chal:rust:bob",
      similarity_score := calculate_similarity fpFn fpFn,
      matched_sections := ["full_code"] }
    (by
      unfold check_plagiarism
      dsimp only
      rw [List.mem_filterMap]
      refine ⟨("chal:rust:bob", fpFn), by simp, ?_⟩
      rw [submission_match_eq_some]
      refine ⟨by decide, by decide, ?_, rfl⟩
      rw [calculate_similarity_self fpFn ⟨"fn", by decide⟩]
      norm_num)

/-- The random-generator interface the fuzzer uses (the rand crate
StdRng, external to this repository): every operation is a pure
transition on an abstract generator state, so the generated sequence is
a function of the seeded state alone. genRange lo hi models
rng.gen_range(lo..hi); genDelta models rng.gen_range(-100.0..100.0) over
Rat; shuffleList models SliceRandom::shuffle. -/
structure RngOps (σ : Type) where
  seedFromU64 : Nat → σ
  genRange : Nat → Nat → σ → Nat × σ
  genDelta : σ → ℚ × σ
  genChar : σ → Char × σ
  genI64 : σ → Int × σ
  genF64 : σ → ℚ × σ
  shuffleList : List JsonValue → σ → List JsonValue × σ

/-- Run a stateful generator a fixed number of times, collecting the
results in order. -/
def iterateGen {σ α : Type} (g : σ → α × σ) : Nat → σ → List α × σ
  | 0, s => ([], s)
  | n + 1, s =>
    let (v, s2) := g s
    let (vs, s3) := iterateGen g n s2
    (v :: vs, s3)

/-- A sequence of rng.gen::<char>() draws. -/
def genChars {σ : Type} (R : RngOps σ) : Nat → σ → List Char × σ
  | 0, s => ([], s)
  | n + 1, s =>
    let (c, s2) := R.genChar s
    let (cs, s3) := genChars R n s2
    (c :: cs, s3)

/-- fuzzer.rs, generate_random_string (lines 244-248). -/
def generate_random_string {σ : Type} (R : RngOps σ) (len : Nat) (s : σ) :
    String × σ :=
  let (cs, s2) := genChars R len s
  (String.mk cs, s2)

/-- serde_json::Map::insert: replace the value under an existing key,
otherwise add the key (the sorted BTreeMap key order is abstracted as
association-list order; it does not affect determinism). -/
def objInsert (fields : List (String × JsonValue)) (k : String)
    (v : JsonValue) : List (String × JsonValue) :=
  if fields.any (fun p => p.1 == k) then
    fields.map (fun p => if p.1 == k then (k, v) else p)
  else fields ++ [(k, v)]

/-- fuzzer.rs, generate_random_value (lines 215-242): a typed random
value - i64, f64, string of length 0-49, array of length 0-9 of
recursive random values, or object of 0-4 fields with key names of
length 1-9. The Rust recursion has no static depth bound; the fuel
argument bounds the embedding, consuming one unit per nesting level. -/
def generate_random_value {σ : Type} (R : RngOps σ) : Nat → σ → JsonValue × σ
  | 0, s => (JsonValue.null, s)
  | fuel + 1, s =>
    let (choice, s1) := R.genRange 0 5 s
    match choice with
    | 0 =>
      let (n, s2) := R.genI64 s1
      (JsonValue.num (n : ℚ), s2)
    | 1 =>
      let (x, s2) := R.genF64 s1
      (JsonValue.num x, s2)
    | 2 =>
      let (len, s2) := R.genRange 0 50 s1
      let (str, s3) := generate_random_string R len s2
      (JsonValue.str str, s3)
    | 3 =>
      let (len, s2) := R.genRange 0 10 s1
      let (arr, s3) := iterateGen (fun t => generate_random_value R fuel t) len s2
      (JsonValue.arr arr, s3)
    | _ =>
      let (numFields, s2) := R.genRange 0 5 s1
      let (pairs, s3) := iterateGen (fun t =>
        let (keyLen, ta) := R.genRange 1 10 t
        let (key, tb) := generate_random_string R keyLen ta
        let (v, tc) := generate_random_value R fuel tb
        ((key, v), tc)) numFields s2
      (JsonValue.obj (pairs.foldl (fun acc p => objInsert acc p.1 p.2) []), s3)

/-- One iteration of the loop in generate_input_variations (fuzzer.rs
lines 169-206): mutate the base input according to its type. as_f64 of a
number is the number itself (unwrap_or(0.0) is unreachable for the
values this embedding represents). -/
def input_variation {σ : Type} (R : RngOps σ) (fuel : Nat) (base : JsonValue)
    (s : σ) : JsonValue × σ :=
  match base with
  | .num n =>
    let (delta, s2) := R.genDelta s
    (.num (n + delta), s2)
  | .str str =>
    let chars := str.data
    if chars.length ≠ 0 then
      let (idx, s2) := R.genRange 0 chars.length s
      let (c, s3) := R.genChar s2
      (.str (String.mk (chars.set idx c)), s3)
    else
      let (out, s2) := generate_random_string R 10 s
      (.str out, s2)
  | .arr elems =>
    if elems.length ≠ 0 then
      let (idx, s2) := R.genRange 0 elems.length s
      let (v, s3) := generate_random_value R fuel s2
      (.arr (elems.set idx v), s3)
    else
      (.arr elems, s)
  | .obj fields =>
    if (fields.map Prod.fst).length ≠ 0 then
      let (ki, s2) := R.genRange 0 (fields.map Prod.fst).length s
      let (v, s3) := generate_random_value R fuel s2
      (.obj (objInsert fields ((fields.map Prod.fst).getD ki "") v), s3)
    else
      (.obj fields, s)
  | .null => generate_random_value R fuel s
  | .bool _ => generate_random_value R fuel s

/-- fuzzer.rs, generate_input_variations (lines 166-209): the requested
number of mutated variations of one base input. -/
def generate_input_variations {σ : Type} (R : RngOps σ) (fuel : Nat)
    (base : JsonValue) (count : Nat) (s : σ) : List JsonValue × σ :=
  iterateGen (input_variation R fuel base) count s

/-- The input-generation phase of run_fuzz_campaign (fuzzer.rs lines
59-84): seed the generator from the stored seed, produce 10 variations
per seed fixture, append 50 fully random inputs, shuffle, and truncate
to max_iterations. Equal value sequences serialize to equal bytes, so
this is the byte-level input sequence of the campaign. -/
def campaign_inputs {σ : Type} (R : RngOps σ) (fuel : Nat) (seed : Nat)
    (base_fixtures : List TestFixture) (max_iterations : Nat) :
    List JsonValue :=
  let s0 := R.seedFromU64 seed
  let step := fun (acc : List JsonValue × σ) (fx : TestFixture) =>
    let (vs, s2) := generate_input_variations R fuel fx.input 10 acc.2
    (acc.1 ++ vs, s2)
  let (fuzz_inputs, s1) := base_fixtures.foldl step ([], s0)
  let (randoms, s2) := iterateGen (fun t => generate_random_value R fuel t) 50 s1
  let (shuffled, _) := R.shuffleList (fuzz_inputs ++ randoms) s2
  shuffled.take max_iterations

/-- C8: two fuzz campaigns over the same generator implementation with
the same stored seed, the same recursion fuel and identical seed
fixtures generate identical input sequences: the generation phase
consults nothing but the seeded generator state and the fixtures. -/
theorem fuzz_campaign_deterministic {σ : Type} (R : RngOps σ) (fuel : Nat)
    (seed1 seed2 : Nat) (fx1 fx2 : List TestFixture) (max_iterations : Nat)
    (hseed : seed1 = seed2) (hfx : fx1 = fx2) :
    campaign_inputs R fuel seed1 fx1 max_iterations
      = campaign_inputs R fuel seed2 fx2 max_iterations := by
  subst hseed
  subst hfx
  rfl

/-- A concrete deterministic generator over a counter state, used as the
witness instance. -/
def countingRng : RngOps Nat :=
  { seedFromU64 := fun n => n
    genRange := fun lo hi s => (lo + s % (hi - lo), s + 1)
    genDelta := fun s => ((s : ℚ) - 50, s + 1)
    genChar := fun s => (Char.ofNat (97 + s % 26), s + 1)
    genI64 := fun s => ((s : Int) - 3, s + 1)
    genF64 := fun s => ((s : ℚ) / 7, s + 1)
    shuffleList := fun l s => (l.reverse, s + 1) }

theorem fuzz_campaign_deterministic_witness :
    campaign_inputs countingRng 3 42
      [{ id := "t1", name := "n", description := "", input := .num 7,
         expected_output := .null, hidden := false, timeout := 30,
         gas_limit := 1000000 }] 100
    = campaign_inputs countingRng 3 42
      [{ id := "t1", name := "n", description := "", input := .num 7,
         expected_output := .null, hidden := false, timeout := 30,
         gas_limit := 1000000 }] 100 :=
  fuzz_campaign_deterministic countingRng 3 42 42
    [{ id := "t1", name := "n", description := "", input := .num 7,
       expected_output := .null, hidden := false, timeout := 30,
       gas_limit := 1000000 }]
    [{ id := "t1", name := "n", description := "", input := .num 7,
       expected_output := .null, hidden := false, timeout := 30,
       gas_limit := 1000000 }] 100 rfl rfl
